import Mathlib

/-!
Verification development for the Circos input generator (circos.py).

The script is a linear pipeline: parse two GenBank annotation files into
gene dictionaries plus a genome length, parse and filter a 12-column BLAST
report, and emit three text files (karyotype, labels, links).

The shallow embedding below mirrors the source functions.  File contents
are modelled as the list of lines written (each `f.write` of one
newline-terminated format string is one list element, without the trailing
newline); standard output diagnostics of generate_links are modelled as a
separate list of strings.  Python dicts are modelled as insertion-ordered
association lists with insert-or-overwrite semantics, which is exactly the
observable behaviour of a `dict` built by repeated assignment and iterated
with `.items()`.
-/

/-- Mirror of a Biopython `SeqFeature` as consumed by `parse_genbank`:
the feature type, the first element of the `gene` and `locus_tag`
qualifier lists when present, the integer location bounds, and the
location strand (`some 1` / `some (-1)` / `none` as in Biopython). -/
structure Feature where
  ftype : String
  gene : Option String
  locus_tag : Option String
  start : Int
  end_ : Int
  strand : Option Int
deriving Repr, DecidableEq

/-- Mirror of one sequence record of a GenBank file: its sequence length
(`len(record.seq)`) and its feature table. -/
structure GBRecord where
  seq_len : Nat
  features : List Feature
deriving Repr, DecidableEq

/-- The value stored in the `genes` dict for one gene: start, end and the
rendered strand string. -/
structure GeneInfo where
  start : Int
  end_ : Int
  strand : String
deriving Repr, DecidableEq

/-- The gene dictionary: a Python dict keyed by gene name, modelled as an
insertion-ordered association list with unique keys maintained by
`dictInsert`. -/
abbrev GeneDict := List (String × GeneInfo)

/-- Python dict assignment `d[k] = v`: overwrite in place if the key is
present (keeping its position), otherwise append a new entry. -/
def dictInsert (d : GeneDict) (k : String) (v : GeneInfo) : GeneDict :=
  if d.any (fun p => p.1 = k) then
    d.map (fun p => if p.1 = k then (k, v) else p)
  else
    d ++ [(k, v)]

/-- Python dict lookup `d[k]` / `k in d`: the value of the first entry
whose key equals `k`, if any. -/
def dictGet (d : GeneDict) (k : String) : Option GeneInfo :=
  match d with
  | [] => none
  | p :: rest => if p.1 = k then some p.2 else dictGet rest k

/-- Lines 16-18 of circos.py: `gene_name = qualifiers.get("gene", ["unknown"])[0]`,
then if the result is the string "unknown", retry with
`qualifiers.get("locus_tag", ["unknown"])[0]`. -/
def gene_name_of (f : Feature) : String :=
  let g := f.gene.getD "unknown"
  if g = "unknown" then f.locus_tag.getD "unknown" else g

/-- Line 24 of circos.py: `"+" if feature.location.strand == 1 else "-"`. -/
def strand_of (f : Feature) : String :=
  if f.strand = some 1 then "+" else "-"

/-- The dict value stored for a CDS feature (lines 27-31 of circos.py). -/
def infoOf (f : Feature) : GeneInfo :=
  { start := f.start, end_ := f.end_, strand := strand_of f }

/-- The inner feature loop of `parse_genbank` (lines 13-31): fold the
features of one record into the gene dict, inserting an entry for each
feature of type "CDS" and ignoring every other feature type. -/
def process_features (genes : GeneDict) : List Feature → GeneDict
  | [] => genes
  | f :: fs =>
    process_features
      (if f.ftype = "CDS" then dictInsert genes (gene_name_of f) (infoOf f) else genes) fs

/-- Embedding of `parse_genbank` (lines 6-32 of circos.py): iterate over
the records of the file; for each record set `contig_length` to that
record's sequence length (an unconditional assignment on every iteration),
then process its features into the shared `genes` dict.  Returns
`(genes, contig_length)` with `contig_length = 0` for an empty file. -/
def parse_genbank (records : List GBRecord) : GeneDict × Nat :=
  records.foldl (fun acc r => (process_features acc.1 r.features, r.seq_len)) ([], 0)

/-- Error raised by the Python runtime while parsing a BLAST row:
`indexError` for a missing column (`row[i]` out of range), `valueError`
for a field that `int()` / `float()` rejects. -/
inductive PyErr where
  | indexError
  | valueError
deriving Repr, DecidableEq

/-- Digit list to number, most significant first. -/
def digitsToNat (l : List Char) : Nat :=
  l.foldl (fun n c => n * 10 + (c.toNat - 48)) 0

/-- Model of Python `int(s)` on a field string: optional sign followed by
a nonempty digit string; anything else raises ValueError.  (The builtin
also tolerates surrounding whitespace and underscores, which never occur
in tab-split BLAST fields.) -/
def pyInt? (s : String) : Option Int :=
  let cs := s.toList
  let signed : Int × List Char :=
    match cs with
    | '-' :: rest => (-1, rest)
    | '+' :: rest => (1, rest)
    | _ => (1, cs)
  if !signed.2.isEmpty && signed.2.all Char.isDigit then
    some (signed.1 * (digitsToNat signed.2 : Int))
  else
    none

/-- Exact value of a parsed decimal float field: the rational
`num / 10 ^ exp`, kept unnormalised so that all operations reduce by
kernel computation.  (A Python float is a binary rounding of this value;
the rounding preserves every comparison against the integer threshold 50
used below, so the exact-decimal model is faithful for the filter.) -/
structure PyFloat where
  num : Int
  exp : Nat
deriving Repr, DecidableEq

/-- The rational value a `PyFloat` denotes. -/
def PyFloat.toRat (a : PyFloat) : ℚ :=
  (a.num : ℚ) / (10 : ℚ) ^ a.exp

instance : LE PyFloat :=
  ⟨fun a b => a.num * (10 : Int) ^ b.exp ≤ b.num * (10 : Int) ^ a.exp⟩

instance (a b : PyFloat) : Decidable (a ≤ b) :=
  inferInstanceAs (Decidable (a.num * (10 : Int) ^ b.exp ≤ b.num * (10 : Int) ^ a.exp))

instance (n : Nat) : OfNat PyFloat n := ⟨⟨(n : Int), 0⟩⟩

/-- Model of Python `float(s)` on a field string, as an exact decimal:
optional sign, then digits with at most one decimal point and at least one
digit overall; anything else raises ValueError.  (The builtin also accepts
exponent notation and special values, which the claims never touch.) -/
def pyFloat? (s : String) : Option PyFloat :=
  let cs := s.toList
  let signed : Int × List Char :=
    match cs with
    | '-' :: rest => (-1, rest)
    | '+' :: rest => (1, rest)
    | _ => (1, cs)
  let intPart := signed.2.takeWhile Char.isDigit
  let rest := signed.2.dropWhile Char.isDigit
  match rest with
  | [] =>
    if intPart.isEmpty then none
    else some ⟨signed.1 * (digitsToNat intPart : Int), 0⟩
  | '.' :: frac =>
    if frac.all Char.isDigit && !(intPart.isEmpty && frac.isEmpty) then
      some ⟨signed.1 * ((digitsToNat intPart : Int) * (10 : Int) ^ frac.length +
        (digitsToNat frac : Int)), frac.length⟩
    else
      none
  | _ => none

/-- Python `row[i]` on a list of fields: IndexError when out of range. -/
def getCol (row : List String) (i : Nat) : Except PyErr String :=
  match row.get? i with
  | some s => Except.ok s
  | none => Except.error PyErr.indexError

/-- Python `float(row[i])`. -/
def floatCol (row : List String) (i : Nat) : Except PyErr PyFloat := do
  let s ← getCol row i
  match pyFloat? s with
  | some q => Except.ok q
  | none => Except.error PyErr.valueError

/-- Python `int(row[i])`. -/
def intCol (row : List String) (i : Nat) : Except PyErr Int := do
  let s ← getCol row i
  match pyInt? s with
  | some n => Except.ok n
  | none => Except.error PyErr.valueError

/-- One fully parsed BLAST row: all twelve typed columns of lines 40-51
of circos.py. -/
structure BlastRow where
  query_id : String
  subject_id : String
  identity : PyFloat
  alignment_length : Int
  mismatches : Int
  gap_opens : Int
  q_start : Int
  q_end : Int
  s_start : Int
  s_end : Int
  evalue : PyFloat
  bit_score : PyFloat
deriving Repr, DecidableEq

/-- The tuple appended to `blast_data` on line 55 of circos.py. -/
structure BlastHit where
  query_id : String
  subject_id : String
  q_start : Int
  q_end : Int
  s_start : Int
  s_end : Int
deriving Repr, DecidableEq

/-- The per-row body of the reader loop (lines 40-51 of circos.py): all
twelve columns are indexed and converted in source order; the first
missing column or unconvertible field aborts with the runtime error. -/
def parse_blast_row (row : List String) : Except PyErr BlastRow := do
  let query_id ← getCol row 0
  let subject_id ← getCol row 1
  let identity ← floatCol row 2
  let alignment_length ← intCol row 3
  let mismatches ← intCol row 4
  let gap_opens ← intCol row 5
  let q_start ← intCol row 6
  let q_end ← intCol row 7
  let s_start ← intCol row 8
  let s_end ← intCol row 9
  let evalue ← floatCol row 10
  let bit_score ← floatCol row 11
  pure
    { query_id := query_id, subject_id := subject_id, identity := identity,
      alignment_length := alignment_length, mismatches := mismatches,
      gap_opens := gap_opens, q_start := q_start, q_end := q_end,
      s_start := s_start, s_end := s_end, evalue := evalue,
      bit_score := bit_score }

/-- Projection of a parsed row to the tuple kept in `blast_data`. -/
def hitOf (r : BlastRow) : BlastHit :=
  { query_id := r.query_id, subject_id := r.subject_id,
    q_start := r.q_start, q_end := r.q_end,
    s_start := r.s_start, s_end := r.s_end }

/-- Embedding of `parse_blast_report` (lines 34-56 of circos.py) on the
tab-split lines of the file: parse each row in order; a row whose
`identity` is at least 50 appends its tuple to `blast_data`; any parse
error aborts the whole run with that error. -/
def parse_blast_report (lines : List (List String)) : Except PyErr (List BlastHit) :=
  match lines with
  | [] => Except.ok []
  | row :: rest =>
    match parse_blast_row row with
    | Except.error e => Except.error e
    | Except.ok r =>
      match parse_blast_report rest with
      | Except.error e => Except.error e
      | Except.ok tail =>
        if 50 ≤ r.identity then Except.ok (hitOf r :: tail) else Except.ok tail

/-- Parsing all rows with no filter: the reference point used to state
which rows survive the identity threshold. -/
def parse_rows (lines : List (List String)) : Except PyErr (List BlastRow) :=
  match lines with
  | [] => Except.ok []
  | row :: rest =>
    match parse_blast_row row with
    | Except.error e => Except.error e
    | Except.ok r =>
      match parse_rows rest with
      | Except.error e => Except.error e
      | Except.ok tail => Except.ok (r :: tail)

/-- Embedding of `generate_karyotype` (lines 58-65 of circos.py): the two
lines written to the karyotype file. -/
def generate_karyotype (query_length subject_length : Nat) (query_name subject_name : String) :
    List String :=
  ["chr - " ++ query_name ++ " " ++ query_name ++ " 0 " ++ toString query_length ++ " green",
   "chr - " ++ subject_name ++ " " ++ subject_name ++ " 0 " ++ toString subject_length ++ " blue"]

/-- One line of the labels file (lines 74 and 80 of circos.py). -/
def labelLine (genome_name : String) (p : String × GeneInfo) : String :=
  genome_name ++ " " ++ toString p.2.start ++ " " ++ toString p.2.end_ ++ " " ++ p.1

/-- Embedding of `generate_labels` (lines 67-80 of circos.py): one line
per dict entry, query genes first, in dict iteration (insertion) order. -/
def generate_labels (query_genes subject_genes : GeneDict) (query_name subject_name : String) :
    List String :=
  query_genes.map (labelLine query_name) ++ subject_genes.map (labelLine subject_name)

/-- One line of the links file (lines 106-107 of circos.py). -/
def linkLine (query_name subject_name : String) (qgs qge sgs sge : Int) : String :=
  query_name ++ " " ++ toString qgs ++ " " ++ toString qge ++ " " ++
    subject_name ++ " " ++ toString sgs ++ " " ++ toString sge

/-- The observable output of `generate_links`: the lines written to the
links file, the diagnostics printed to stdout for skipped rows, and the
final `link_count`. -/
structure LinksOut where
  lines : List String
  diag : List String
  count : Nat
deriving Repr, DecidableEq

/-- Embedding of the loop of `generate_links` (lines 86-108 of
circos.py): for each tuple, look up the query gene and then the subject
gene; a failed lookup prints a diagnostic naming the failing side and
continues with the next tuple; on success write one link line with
absolute coordinates `gene start + local coordinate` and increment the
count. -/
def generate_links (blast_data : List BlastHit) (query_genes subject_genes : GeneDict)
    (query_name subject_name : String) : LinksOut :=
  match blast_data with
  | [] => { lines := [], diag := [], count := 0 }
  | h :: rest =>
    match dictGet query_genes h.query_id with
    | none =>
      let r := generate_links rest query_genes subject_genes query_name subject_name
      { lines := r.lines,
        diag := ("Query gene " ++ h.query_id ++ " not found in query GenBank file.") :: r.diag,
        count := r.count }
    | some query_gene =>
      match dictGet subject_genes h.subject_id with
      | none =>
        let r := generate_links rest query_genes subject_genes query_name subject_name
        { lines := r.lines,
          diag := ("Subject gene " ++ h.subject_id ++ " not found in subject GenBank file.") :: r.diag,
          count := r.count }
      | some subject_gene =>
        let r := generate_links rest query_genes subject_genes query_name subject_name
        { lines := linkLine query_name subject_name
            (query_gene.start + h.q_start) (query_gene.start + h.q_end)
            (subject_gene.start + h.s_start) (subject_gene.start + h.s_end) :: r.lines,
          diag := r.diag,
          count := r.count + 1 }

/-- The line contributed to the links file by one tuple, when both sides
resolve; `none` when either lookup fails. -/
def resolveLine (query_genes subject_genes : GeneDict) (query_name subject_name : String)
    (h : BlastHit) : Option String :=
  match dictGet query_genes h.query_id with
  | none => none
  | some query_gene =>
    match dictGet subject_genes h.subject_id with
    | none => none
    | some subject_gene =>
      some (linkLine query_name subject_name
        (query_gene.start + h.q_start) (query_gene.start + h.q_end)
        (subject_gene.start + h.s_start) (subject_gene.start + h.s_end))

instance {ε α : Type} [DecidableEq ε] [DecidableEq α] : DecidableEq (Except ε α)
  | Except.error e, Except.error f =>
    if h : e = f then Decidable.isTrue (by rw [h]) else Decidable.isFalse (by simp [h])
  | Except.ok a, Except.ok b =>
    if h : a = b then Decidable.isTrue (by rw [h]) else Decidable.isFalse (by simp [h])
  | Except.error _, Except.ok _ => Decidable.isFalse (by simp)
  | Except.ok _, Except.error _ => Decidable.isFalse (by simp)

/-- The key list of a gene dict, in insertion order. -/
def keys (d : GeneDict) : List String := d.map Prod.fst

/-- The concatenated feature tables of all records of a file, in file
order: exactly the features visited by the nested loops of
`parse_genbank`. -/
def all_features : List GBRecord → List Feature
  | [] => []
  | r :: rest => r.features ++ all_features rest

/-- The last CDS feature of a feature list whose resolved name is `k`:
the feature whose data survives last-write-wins. -/
def lastCDS (k : String) (fs : List Feature) : Option Feature :=
  (fs.filter (fun f => decide (f.ftype = "CDS") && decide (gene_name_of f = k))).getLast?

theorem dictGet_map_overwrite (k : String) (v : GeneInfo) (k' : String) :
    ∀ d : GeneDict, dictGet (d.map (fun p => if p.1 = k then (k, v) else p)) k' =
      if k' = k then (dictGet d k).map (fun _ => v) else dictGet d k' := by
  intro d
  induction d with
  | nil => by_cases hk : k' = k <;> simp [dictGet, hk]
  | cons p rest ih =>
    simp only [List.map_cons]
    by_cases hp : p.1 = k
    · by_cases hk : k' = k
      · subst hk
        simp [dictGet, hp, ih]
      · have hne : ¬(k = k') := fun h => hk h.symm
        have hpk' : ¬(p.1 = k') := fun h => hk (h.symm.trans hp)
        simp [dictGet, hp, hne, hk, hpk', ih]
    · by_cases hk : k' = k
      · subst hk
        simp [dictGet, hp, ih]
      · by_cases hpk : p.1 = k' <;> simp [dictGet, hp, hk, hpk, ih]

theorem dictGet_append_singleton (k : String) (v : GeneInfo) (k' : String) :
    ∀ d : GeneDict, dictGet (d ++ [(k, v)]) k' =
      match dictGet d k' with
      | some w => some w
      | none => if k = k' then some v else none := by
  intro d
  induction d with
  | nil => simp [dictGet]
  | cons p rest ih =>
    by_cases hp : p.1 = k' <;> simp [dictGet, hp, ih]

theorem dictGet_eq_none_iff (k : String) :
    ∀ d : GeneDict, dictGet d k = none ↔ k ∉ keys d := by
  intro d
  induction d with
  | nil => simp [dictGet, keys]
  | cons p rest ih =>
    by_cases hp : p.1 = k
    · simp [dictGet, keys, hp]
    · have hkp : ¬(k = p.1) := fun h => hp h.symm
      simp [dictGet, keys, hp, hkp, ih]

theorem any_key_eq_isSome (k : String) :
    ∀ d : GeneDict, (d.any fun p => p.1 = k) = (dictGet d k).isSome := by
  intro d
  induction d with
  | nil => simp [dictGet]
  | cons p rest ih =>
    by_cases hp : p.1 = k <;> simp [dictGet, hp, ih]

theorem dictGet_dictInsert (d : GeneDict) (k : String) (v : GeneInfo) (k' : String) :
    dictGet (dictInsert d k v) k' = if k' = k then some v else dictGet d k' := by
  unfold dictInsert
  by_cases h : (d.any fun p => p.1 = k) = true
  · simp only [h, if_true, dictGet_map_overwrite]
    rw [any_key_eq_isSome] at h
    by_cases hk : k' = k
    · subst hk
      cases hd : dictGet d k' with
      | none => rw [hd] at h; simp at h
      | some w => simp [hd]
    · simp [hk]
  · have h' : (d.any fun p => p.1 = k) = false := by
      cases hb : (d.any fun p => p.1 = k) with
      | false => rfl
      | true => exact absurd hb h
    have hdk : dictGet d k = none := by
      rw [any_key_eq_isSome] at h'
      cases hd : dictGet d k with
      | none => rfl
      | some w => rw [hd] at h'; simp at h'
    simp only [h', Bool.false_eq_true, if_false, dictGet_append_singleton]
    by_cases hk : k' = k
    · subst hk
      simp [hdk]
    · have hk2 : ¬(k = k') := fun h'' => hk h''.symm
      cases hd : dictGet d k' with
      | none => simp [hk, hk2]
      | some w => simp [hk]

theorem keys_dictInsert (d : GeneDict) (k : String) (v : GeneInfo) :
    keys (dictInsert d k v) =
      if (dictGet d k).isSome then keys d else keys d ++ [k] := by
  unfold dictInsert
  by_cases h : (d.any fun p => p.1 = k) = true
  · have h2 := h
    rw [any_key_eq_isSome] at h2
    simp only [h, if_true, h2, keys, List.map_map]
    apply List.map_congr_left
    intro p _
    by_cases hp : p.1 = k <;> simp [hp]
  · have h' : (d.any fun p => p.1 = k) = false := by
      cases hb : (d.any fun p => p.1 = k) with
      | false => rfl
      | true => exact absurd hb h
    have h2 := h'
    rw [any_key_eq_isSome] at h2
    simp [h', h2, keys]

theorem nodup_keys_dictInsert (d : GeneDict) (k : String) (v : GeneInfo)
    (hd : (keys d).Nodup) : (keys (dictInsert d k v)).Nodup := by
  rw [keys_dictInsert]
  cases hg : dictGet d k with
  | some w => simpa using hd
  | none =>
    have hk : k ∉ keys d := (dictGet_eq_none_iff k d).mp hg
    simp only [hg, Option.isSome_none, Bool.false_eq_true, if_false]
    rw [← List.concat_eq_append]
    exact List.Nodup.concat hk hd

theorem nodup_keys_process_features (fs : List Feature) :
    ∀ d : GeneDict, (keys d).Nodup → (keys (process_features d fs)).Nodup := by
  induction fs with
  | nil => intro d hd; exact hd
  | cons f fs ih =>
    intro d hd
    by_cases hf : f.ftype = "CDS" <;>
      simp only [process_features, hf, if_true, if_false]
    · exact ih _ (nodup_keys_dictInsert _ _ _ hd)
    · exact ih _ hd

theorem process_features_append (xs ys : List Feature) :
    ∀ d : GeneDict, process_features d (xs ++ ys) =
      process_features (process_features d xs) ys := by
  induction xs with
  | nil => intro d; rfl
  | cons f xs ih =>
    intro d
    simp only [List.cons_append, process_features]
    exact ih _

theorem parse_genbank_genes (records : List GBRecord) :
    (parse_genbank records).1 = process_features [] (all_features records) := by
  suffices h : ∀ (rs : List GBRecord) (d : GeneDict) (n : Nat),
      (rs.foldl (fun acc r => (process_features acc.1 r.features, r.seq_len)) (d, n)).1 =
        process_features d (all_features rs) by
    exact h records [] 0
  intro rs
  induction rs with
  | nil => intro d n; rfl
  | cons r rs ih =>
    intro d n
    simp only [List.foldl_cons, all_features, process_features_append]
    exact ih _ _

theorem nodup_keys_parse_genbank (records : List GBRecord) :
    (keys (parse_genbank records).1).Nodup := by
  rw [parse_genbank_genes]
  exact nodup_keys_process_features _ [] (by simp [keys])

theorem dictGet_process_features (k : String) :
    ∀ (fs : List Feature) (d : GeneDict),
      dictGet (process_features d fs) k =
        match lastCDS k fs with
        | some f => some (infoOf f)
        | none => dictGet d k := by
  intro fs
  induction fs with
  | nil => intro d; rfl
  | cons f fs ih =>
    intro d
    by_cases hf : f.ftype = "CDS"
    · by_cases hn : gene_name_of f = k
      · simp only [process_features, hf, if_true]
        rw [ih]
        have hfil : lastCDS k (f :: fs) =
            match lastCDS k fs with
            | some g => some g
            | none => some f := by
          simp only [lastCDS, List.filter_cons, hf, hn, decide_True, Bool.and_self, if_true]
          cases h3 : (fs.filter fun g => decide (g.ftype = "CDS") && decide (gene_name_of g = k)) with
          | nil => simp
          | cons a l =>
            cases h4 : (a :: l).getLast? with
            | none => exact absurd (List.getLast?_eq_none_iff.mp h4) (by simp)
            | some g => simp [List.getLast?_cons_cons, h4]
        rw [hfil]
        cases h2 : lastCDS k fs with
        | some g => rfl
        | none =>
          rw [hn] at *
          rw [dictGet_dictInsert]
          simp
      · simp only [process_features, hf, if_true]
        rw [ih]
        have hkn : ¬(k = gene_name_of f) := fun h => hn h.symm
        have hfil : lastCDS k (f :: fs) = lastCDS k fs := by
          simp [lastCDS, List.filter_cons, hn]
        rw [hfil]
        cases h2 : lastCDS k fs with
        | some g => rfl
        | none =>
          rw [dictGet_dictInsert, if_neg hkn]
    · simp only [process_features, if_neg hf]
      rw [ih]
      have hfil : lastCDS k (f :: fs) = lastCDS k fs := by
        simp [lastCDS, List.filter_cons, hf]
      rw [hfil]

theorem filter_key_nil (k : String) :
    ∀ d : GeneDict, k ∉ keys d → d.filter (fun p => decide (p.1 = k)) = [] := by
  intro d
  induction d with
  | nil => intro _; rfl
  | cons p rest ih =>
    intro h
    simp only [keys, List.map_cons, List.mem_cons, not_or] at h
    have hp : ¬(p.1 = k) := fun h' => h.1 h'.symm
    simp only [List.filter_cons, hp, decide_False, Bool.false_eq_true, if_false]
    exact ih (by simp [keys, h.2])

theorem filter_key_of_nodup (k : String) (v : GeneInfo) :
    ∀ d : GeneDict, (keys d).Nodup → dictGet d k = some v →
      d.filter (fun p => decide (p.1 = k)) = [(k, v)] := by
  intro d
  induction d with
  | nil => intro _ h; simp [dictGet] at h
  | cons p rest ih =>
    intro hnd hget
    simp only [keys, List.map_cons, List.nodup_cons] at hnd
    by_cases hp : p.1 = k
    · have hv : p.2 = v := by
        simp only [dictGet, hp, if_true] at hget
        exact Option.some.inj hget
      have hpv : p = (k, v) := by
        cases p
        simp only [Prod.mk.injEq]
        exact ⟨hp, hv⟩
      have hrest : rest.filter (fun p => decide (p.1 = k)) = [] :=
        filter_key_nil k rest (by rw [← hp]; exact (by simpa [keys] using hnd.1))
      simp [List.filter_cons, hp, hrest, hpv]
    · simp only [dictGet, if_neg hp] at hget
      simp only [List.filter_cons, hp, decide_False, Bool.false_eq_true, if_false]
      exact ih hnd.2 hget

/-- Claim C1: the genome length returned by `parse_genbank` for a
two-record file is the length of the LAST record, not the first: the
assignment `contig_length = len(record.seq)` runs on every loop
iteration, contradicting the inline comment and the documented
first-record rule.  Evaluating the embedding at the failing input: two
records of lengths 100 and 200 yield genome length 200. -/
theorem parse_genbank_length_is_last_record :
    parse_genbank [{ seq_len := 100, features := [] }, { seq_len := 200, features := [] }]
      = ([], 200) ∧ (200 : Nat) ≠ 100 := by
  constructor
  · rfl
  · decide

/-- Claim C5 counterexample: a CDS feature whose `gene` qualifier is
present with the literal value "unknown" does not use that primary
qualifier value as its identifier (the code falls through to the
`locus_tag`), refuting the claim that the primary qualifier is used
whenever present. -/
theorem gene_name_unknown_counterexample :
    (Feature.mk "CDS" (some "unknown") (some "ORF1") 0 10 (some 1)).gene = some "unknown" ∧
    gene_name_of (Feature.mk "CDS" (some "unknown") (some "ORF1") 0 10 (some 1)) ≠ "unknown" := by
  exact ⟨rfl, by decide⟩

/-- Claim C5 (amended): the identifier is the `gene` qualifier value when
that qualifier is present with a value different from the placeholder
"unknown"; a feature lacking the `gene` qualifier, or whose `gene` value
equals "unknown", uses the `locus_tag` value when present; with neither
available the identifier is the placeholder "unknown". -/
theorem gene_name_resolution (f : Feature) :
    (∀ g, f.gene = some g → g ≠ "unknown" → gene_name_of f = g) ∧
    (∀ t, (f.gene = none ∨ f.gene = some "unknown") → f.locus_tag = some t →
      gene_name_of f = t) ∧
    ((f.gene = none ∨ f.gene = some "unknown") → f.locus_tag = none →
      gene_name_of f = "unknown") := by
  refine ⟨?_, ?_, ?_⟩
  · intro g hg hne
    simp [gene_name_of, hg, hne]
  · intro t hor ht
    rcases hor with h | h <;> simp [gene_name_of, h, ht]
  · intro hor ht
    rcases hor with h | h <;> simp [gene_name_of, h, ht]

/-- Witness for C5: concrete features exercising all three resolution
branches of `gene_name_of` through the amended theorem. -/
theorem gene_name_resolution_witness :
    gene_name_of (Feature.mk "CDS" (some "psbA") none 0 10 (some 1)) = "psbA" ∧
    gene_name_of (Feature.mk "CDS" none (some "L1") 0 10 (some 1)) = "L1" ∧
    gene_name_of (Feature.mk "CDS" none none 0 10 (some 1)) = "unknown" :=
  ⟨(gene_name_resolution _).1 "psbA" rfl (by decide),
   (gene_name_resolution _).2.1 "L1" (Or.inl rfl) rfl,
   (gene_name_resolution _).2.2 (Or.inl rfl) rfl⟩

/-- Claim C6: when two or more CDS features of a genome share the same
resolved identifier `k`, the gene dict returned by `parse_genbank` has
exactly one entry for `k`, holding the data of the feature processed last
(last-write-wins), and the labels output has exactly one line per dict
entry, in particular containing the line for `k` with the last feature's
coordinates. -/
theorem parse_genbank_last_write_wins (records : List GBRecord) (k : String)
    (flast : Feature) (query_name subject_name : String)
    (hdup : 2 ≤ ((all_features records).filter
      (fun f => decide (f.ftype = "CDS") && decide (gene_name_of f = k))).length)
    (hlast : lastCDS k (all_features records) = some flast) :
    dictGet (parse_genbank records).1 k = some (infoOf flast) ∧
    ((parse_genbank records).1).filter (fun p => decide (p.1 = k)) = [(k, infoOf flast)] ∧
    generate_labels (parse_genbank records).1 [] query_name subject_name =
      ((parse_genbank records).1).map (labelLine query_name) ∧
    labelLine query_name (k, infoOf flast) ∈
      generate_labels (parse_genbank records).1 [] query_name subject_name := by
  have hget : dictGet (parse_genbank records).1 k = some (infoOf flast) := by
    rw [parse_genbank_genes, dictGet_process_features, hlast]
  have hnd := nodup_keys_parse_genbank records
  have hfil := filter_key_of_nodup k (infoOf flast) _ hnd hget
  refine ⟨hget, hfil, by simp [generate_labels], ?_⟩
  have hmem : (k, infoOf flast) ∈ (parse_genbank records).1 := by
    have h1 : (k, infoOf flast) ∈
        ((parse_genbank records).1).filter (fun p => decide (p.1 = k)) := by
      rw [hfil]; exact List.mem_singleton.mpr rfl
    exact List.mem_of_mem_filter h1
  simp only [generate_labels, List.map_nil, List.append_nil]
  exact List.mem_map_of_mem _ hmem

theorem parse_blast_report_filter_char :
    ∀ (lines : List (List String)) (rs : List BlastRow),
      parse_rows lines = Except.ok rs →
      parse_blast_report lines =
        Except.ok ((rs.filter fun r => decide ((50 : PyFloat) ≤ r.identity)).map hitOf) := by
  intro lines
  induction lines with
  | nil =>
    intro rs h
    simp only [parse_rows] at h
    cases h
    rfl
  | cons row rest ih =>
    intro rs h
    simp only [parse_rows] at h
    cases h1 : parse_blast_row row with
    | error e => rw [h1] at h; cases h
    | ok r =>
      rw [h1] at h
      cases h2 : parse_rows rest with
      | error e => rw [h2] at h; cases h
      | ok ts =>
        rw [h2] at h
        cases h
        simp only [parse_blast_report, h1, ih ts h2]
        by_cases hid : (50 : PyFloat) ≤ r.identity <;>
          simp [List.filter_cons, hid]

theorem parse_blast_report_error_prop (row : List String) (e : PyErr)
    (he : parse_blast_row row = Except.error e) :
    ∀ (pre rest : List (List String)) (rs : List BlastRow),
      parse_rows pre = Except.ok rs →
      parse_blast_report (pre ++ row :: rest) = Except.error e := by
  intro pre
  induction pre with
  | nil =>
    intro rest rs _
    simp [parse_blast_report, he]
  | cons p pre ih =>
    intro rest rs h
    simp only [parse_rows] at h
    cases h1 : parse_blast_row p with
    | error e' => rw [h1] at h; cases h
    | ok r =>
      rw [h1] at h
      cases h2 : parse_rows pre with
      | error e' => rw [h2] at h; cases h
      | ok ts =>
        have ih' : parse_blast_report (pre.append (row :: rest)) = Except.error e :=
          ih rest ts h2
        simp only [List.cons_append, parse_blast_report, h1, ih']

/-- Fixture: a BLAST line with percent identity exactly 50.0. -/
def row50 : List String :=
  ["gene1", "geneA", "50.0", "10", "0", "0", "1", "5", "2", "6", "0.001", "20.5"]

/-- Fixture: the same BLAST line with percent identity 49.999. -/
def row49 : List String :=
  ["gene1", "geneA", "49.999", "10", "0", "0", "1", "5", "2", "6", "0.001", "20.5"]

/-- Typed parse of `row50`. -/
def r50 : BlastRow :=
  { query_id := "gene1", subject_id := "geneA", identity := ⟨500, 1⟩,
    alignment_length := 10, mismatches := 0, gap_opens := 0,
    q_start := 1, q_end := 5, s_start := 2, s_end := 6,
    evalue := ⟨1, 3⟩, bit_score := ⟨205, 1⟩ }

/-- Typed parse of `row49`. -/
def r49 : BlastRow :=
  { query_id := "gene1", subject_id := "geneA", identity := ⟨49999, 3⟩,
    alignment_length := 10, mismatches := 0, gap_opens := 0,
    q_start := 1, q_end := 5, s_start := 2, s_end := 6,
    evalue := ⟨1, 3⟩, bit_score := ⟨205, 1⟩ }

/-- Fixture: a malformed BLAST line: identity 40.0 (below threshold) but
an unparsable `bit_score` field. -/
def badRow : List String :=
  ["q", "s", "40.0", "10", "0", "0", "1", "5", "2", "6", "0.001", "xyz"]

/-- Claim C3: a row of the alignment report survives into `blast_data`
iff its percent identity is at least 50.0: whenever every line parses,
`parse_blast_report` returns exactly the rows passing the threshold, in
input order; at the boundary, a row with identity exactly 50.0 is kept
and a row with 49.999 is dropped. -/
theorem blast_identity_filter :
    (∀ (lines : List (List String)) (rs : List BlastRow),
      parse_rows lines = Except.ok rs →
      parse_blast_report lines =
        Except.ok ((rs.filter fun r => decide ((50 : PyFloat) ≤ r.identity)).map hitOf)) ∧
    parse_blast_report [row50] = Except.ok [hitOf r50] ∧
    parse_blast_report [row49] = Except.ok [] :=
  ⟨parse_blast_report_filter_char, by decide, by decide⟩

/-- Witness for C3: on the concrete two-line file with identities 50.0
and 49.999 the filter keeps exactly the first row's tuple. -/
theorem blast_identity_filter_witness :
    parse_rows [row50, row49] = Except.ok [r50, r49] ∧
    parse_blast_report [row50, row49] = Except.ok [hitOf r50] :=
  ⟨by decide,
   (blast_identity_filter.1 [row50, row49] [r50, r49] (by decide)).trans (by decide)⟩

/-- Claim C9: all twelve columns of a line are accessed and parsed before
the identity filter applies, so a malformed line (missing column or
unparsable numeric field) aborts the whole run with the runtime error,
even when that line's identity is below the 50.0 threshold: concretely, a
row with identity 40.0 and unparsable bit_score raises ValueError, and an
11-column row with identity 40.0 raises IndexError. -/
theorem blast_malformed_aborts :
    (∀ (row : List String) (e : PyErr), parse_blast_row row = Except.error e →
      ∀ (pre rest : List (List String)) (rs : List BlastRow),
        parse_rows pre = Except.ok rs →
        parse_blast_report (pre ++ row :: rest) = Except.error e) ∧
    parse_blast_report [badRow] = Except.error PyErr.valueError ∧
    parse_blast_report [["q", "s", "40.0", "10", "0", "0", "1", "5", "2", "6", "0.001"]] =
      Except.error PyErr.indexError :=
  ⟨fun row e he pre rest rs h => parse_blast_report_error_prop row e he pre rest rs h,
   by decide, by decide⟩

/-- Witness for C9: a malformed line in the middle of a file aborts the
parse even though its identity (40.0) is below the threshold and later
lines exist. -/
theorem blast_malformed_aborts_witness :
    parse_blast_report [row50, badRow, row49] = Except.error PyErr.valueError :=
  blast_malformed_aborts.1 badRow PyErr.valueError (by decide) [row50] [row49] [r50] (by decide)

/-- Fixture: first of two CDS features sharing the name "dup". -/
def dupF1 : Feature :=
  { ftype := "CDS", gene := some "dup", locus_tag := none,
    start := 10, end_ := 20, strand := some 1 }

/-- Fixture: second (later) CDS feature named "dup". -/
def dupF2 : Feature :=
  { ftype := "CDS", gene := some "dup", locus_tag := none,
    start := 30, end_ := 40, strand := some (-1) }

/-- Fixture: a one-record genome holding the two duplicate features. -/
def dupRecords : List GBRecord := [{ seq_len := 1000, features := [dupF1, dupF2] }]

/-- Witness for C6: with two CDS features named "dup" at 10-20 and 30-40,
the dict keeps one entry with the later coordinates, and the labels
output reflects it. -/
theorem parse_genbank_last_write_wins_witness :
    dictGet (parse_genbank dupRecords).1 "dup" = some (infoOf dupF2) ∧
    ((parse_genbank dupRecords).1).filter (fun p => decide (p.1 = "dup")) =
      [("dup", infoOf dupF2)] ∧
    generate_labels (parse_genbank dupRecords).1 [] "plastome" "mito" =
      ((parse_genbank dupRecords).1).map (labelLine "plastome") ∧
    labelLine "plastome" ("dup", infoOf dupF2) ∈
      generate_labels (parse_genbank dupRecords).1 [] "plastome" "mito" :=
  parse_genbank_last_write_wins dupRecords "dup" dupF2 "plastome" "mito"
    (by decide) (by decide)

/-- The diagnostic printed for one blast tuple by `generate_links`, if
any: the query-side message when the query lookup fails, else the
subject-side message when the subject lookup fails. -/
def diagLine (query_genes subject_genes : GeneDict) (h : BlastHit) : Option String :=
  match dictGet query_genes h.query_id with
  | none => some ("Query gene " ++ h.query_id ++ " not found in query GenBank file.")
  | some _ =>
    match dictGet subject_genes h.subject_id with
    | none => some ("Subject gene " ++ h.subject_id ++ " not found in subject GenBank file.")
    | some _ => none

theorem generate_links_char (query_genes subject_genes : GeneDict) (qn sn : String) :
    ∀ bd : List BlastHit,
      generate_links bd query_genes subject_genes qn sn =
        { lines := bd.filterMap (resolveLine query_genes subject_genes qn sn),
          diag := bd.filterMap (diagLine query_genes subject_genes),
          count := (bd.filterMap (resolveLine query_genes subject_genes qn sn)).length } := by
  intro bd
  induction bd with
  | nil => rfl
  | cons h rest ih =>
    cases h1 : dictGet query_genes h.query_id with
    | none =>
      simp [generate_links, h1, ih, List.filterMap_cons, resolveLine, diagLine]
    | some g1 =>
      cases h2 : dictGet subject_genes h.subject_id with
      | none =>
        simp [generate_links, h1, h2, ih, List.filterMap_cons, resolveLine, diagLine]
      | some g2 =>
        simp [generate_links, h1, h2, ih, List.filterMap_cons, resolveLine, diagLine]

/-- Claim C2: for a retained alignment row whose query and subject both
resolve, the emitted link line carries absolute coordinates equal to the
matched gene's start plus the alignment-local coordinate, on both ends of
both sides, wherever the row sits in the input. -/
theorem links_coordinate_translation (query_genes subject_genes : GeneDict)
    (query_name subject_name : String) (h : BlastHit) (g1 g2 : GeneInfo)
    (hq : dictGet query_genes h.query_id = some g1)
    (hs : dictGet subject_genes h.subject_id = some g2) :
    ∀ pre : List BlastHit,
      (generate_links (pre ++ [h]) query_genes subject_genes query_name subject_name).lines =
        (generate_links pre query_genes subject_genes query_name subject_name).lines ++
          [linkLine query_name subject_name
            (g1.start + h.q_start) (g1.start + h.q_end)
            (g2.start + h.s_start) (g2.start + h.s_end)] := by
  intro pre
  rw [generate_links_char, generate_links_char]
  simp [List.filterMap_append, List.filterMap_cons, resolveLine, hq, hs]

/-- Fixture: query gene dict with one gene at absolute start 1000. -/
def qgC2 : GeneDict := [("gene1", { start := 1000, end_ := 1500, strand := "+" })]

/-- Fixture: subject gene dict with one gene at absolute start 2000. -/
def sgC2 : GeneDict := [("geneA", { start := 2000, end_ := 2500, strand := "+" })]

/-- Witness for C2: a gene at absolute start 1000 with alignment-local
query start 5 yields emitted absolute query start 1005 (and so on for the
other three coordinates). -/
theorem links_coordinate_translation_witness :
    (generate_links ([] ++ [BlastHit.mk "gene1" "geneA" 5 50 1 40]) qgC2 sgC2
      "plastome" "mito").lines =
      (generate_links [] qgC2 sgC2 "plastome" "mito").lines ++
        [linkLine "plastome" "mito" (1000 + 5) (1000 + 50) (2000 + 1) (2000 + 40)] :=
  links_coordinate_translation qgC2 sgC2 "plastome" "mito"
    (BlastHit.mk "gene1" "geneA" 5 50 1 40)
    { start := 1000, end_ := 1500, strand := "+" }
    { start := 2000, end_ := 2500, strand := "+" }
    (by decide) (by decide) []

/-- Claim C4: a filtered row whose query or subject lookup fails
contributes zero lines to the links file, a diagnostic naming the failing
side is printed, the remaining rows are still processed (the outputs are
those of the input with the row removed), and the reported count excludes
the row and always equals the number of link lines written. -/
theorem links_skip_unresolved (query_genes subject_genes : GeneDict)
    (query_name subject_name : String) (pre post : List BlastHit) (h : BlastHit)
    (hfail : dictGet query_genes h.query_id = none ∨
      dictGet subject_genes h.subject_id = none) :
    (generate_links (pre ++ h :: post) query_genes subject_genes query_name subject_name).lines =
      (generate_links (pre ++ post) query_genes subject_genes query_name subject_name).lines ∧
    (generate_links (pre ++ h :: post) query_genes subject_genes query_name subject_name).count =
      (generate_links (pre ++ post) query_genes subject_genes query_name subject_name).count ∧
    (dictGet query_genes h.query_id = none →
      ("Query gene " ++ h.query_id ++ " not found in query GenBank file.") ∈
        (generate_links (pre ++ h :: post) query_genes subject_genes query_name subject_name).diag) ∧
    (∀ g, dictGet query_genes h.query_id = some g →
      dictGet subject_genes h.subject_id = none →
      ("Subject gene " ++ h.subject_id ++ " not found in subject GenBank file.") ∈
        (generate_links (pre ++ h :: post) query_genes subject_genes query_name subject_name).diag) ∧
    (generate_links (pre ++ h :: post) query_genes subject_genes query_name subject_name).count =
      (generate_links (pre ++ h :: post) query_genes subject_genes query_name subject_name).lines.length := by
  have hres : resolveLine query_genes subject_genes query_name subject_name h = none := by
    rcases hfail with hf | hf
    · simp [resolveLine, hf]
    · cases hq : dictGet query_genes h.query_id <;> simp [resolveLine, hq, hf]
  rw [generate_links_char, generate_links_char]
  refine ⟨?_, ?_, ?_, ?_, rfl⟩
  · simp [List.filterMap_append, List.filterMap_cons, hres]
  · simp [List.filterMap_append, List.filterMap_cons, hres]
  · intro hq
    apply List.mem_filterMap.mpr
    exact ⟨h, List.mem_append.mpr (Or.inr (List.mem_cons_self _ _)), by simp [diagLine, hq]⟩
  · intro g hq hs
    apply List.mem_filterMap.mpr
    exact ⟨h, List.mem_append.mpr (Or.inr (List.mem_cons_self _ _)), by simp [diagLine, hq, hs]⟩

/-- Fixture: a blast tuple that resolves in `qgC2`/`sgC2`. -/
def hitOK : BlastHit :=
  { query_id := "gene1", subject_id := "geneA",
    q_start := 1, q_end := 2, s_start := 3, s_end := 4 }

/-- Fixture: a blast tuple whose query id matches no gene. -/
def hitBad : BlastHit :=
  { query_id := "ghost", subject_id := "geneA",
    q_start := 1, q_end := 2, s_start := 3, s_end := 4 }

/-- Witness for C4: an unresolved row between two resolvable rows is
skipped with a query-side diagnostic, the other rows still produce their
lines, and the count matches the lines written. -/
theorem links_skip_unresolved_witness :
    (generate_links ([hitOK] ++ hitBad :: [hitOK]) qgC2 sgC2 "plastome" "mito").lines =
      (generate_links ([hitOK] ++ [hitOK]) qgC2 sgC2 "plastome" "mito").lines ∧
    (generate_links ([hitOK] ++ hitBad :: [hitOK]) qgC2 sgC2 "plastome" "mito").count =
      (generate_links ([hitOK] ++ [hitOK]) qgC2 sgC2 "plastome" "mito").count ∧
    (dictGet qgC2 hitBad.query_id = none →
      ("Query gene " ++ hitBad.query_id ++ " not found in query GenBank file.") ∈
        (generate_links ([hitOK] ++ hitBad :: [hitOK]) qgC2 sgC2 "plastome" "mito").diag) ∧
    (∀ g, dictGet qgC2 hitBad.query_id = some g →
      dictGet sgC2 hitBad.subject_id = none →
      ("Subject gene " ++ hitBad.subject_id ++ " not found in subject GenBank file.") ∈
        (generate_links ([hitOK] ++ hitBad :: [hitOK]) qgC2 sgC2 "plastome" "mito").diag) ∧
    (generate_links ([hitOK] ++ hitBad :: [hitOK]) qgC2 sgC2 "plastome" "mito").count =
      (generate_links ([hitOK] ++ hitBad :: [hitOK]) qgC2 sgC2 "plastome" "mito").lines.length :=
  links_skip_unresolved qgC2 sgC2 "plastome" "mito" [hitOK] [hitOK] hitBad
    (Or.inl (by decide))

/-- Claim C7: the karyotype output is exactly two lines of the form
`chr - name name 0 length color`, the first for the query genome in
green, the second for the subject genome in blue. -/
theorem karyotype_two_lines (query_length subject_length : Nat)
    (query_name subject_name : String) :
    generate_karyotype query_length subject_length query_name subject_name =
      ["chr - " ++ query_name ++ " " ++ query_name ++ " 0 " ++
        toString query_length ++ " green",
       "chr - " ++ subject_name ++ " " ++ subject_name ++ " 0 " ++
        toString subject_length ++ " blue"] ∧
    (generate_karyotype query_length subject_length query_name subject_name).length = 2 :=
  ⟨rfl, rfl⟩

/-- Claim C8: filtered rows keep their input order (the parse result is
the in-order filter of the typed rows, with no sorting, deduplication or
merging), and the links file is the in-order filterMap of the filtered
tuples: one line per successfully resolved row, in input row order. -/
theorem output_order_preserved :
    (∀ (lines : List (List String)) (rs : List BlastRow),
      parse_rows lines = Except.ok rs →
      parse_blast_report lines =
        Except.ok ((rs.filter fun r => decide ((50 : PyFloat) ≤ r.identity)).map hitOf)) ∧
    (∀ (bd : List BlastHit) (query_genes subject_genes : GeneDict) (qn sn : String),
      (generate_links bd query_genes subject_genes qn sn).lines =
        bd.filterMap (resolveLine query_genes subject_genes qn sn)) :=
  ⟨parse_blast_report_filter_char,
   fun bd qg sg qn sn => by rw [generate_links_char]⟩

/-- Fixture: a BLAST line with identity 60.0 and distinct gene ids. -/
def row60 : List String :=
  ["gene2", "geneB", "60.0", "8", "1", "0", "3", "7", "4", "8", "0.01", "30.5"]

/-- Typed parse of `row60`. -/
def r60 : BlastRow :=
  { query_id := "gene2", subject_id := "geneB", identity := ⟨600, 1⟩,
    alignment_length := 8, mismatches := 1, gap_opens := 0,
    q_start := 3, q_end := 7, s_start := 4, s_end := 8,
    evalue := ⟨1, 2⟩, bit_score := ⟨305, 1⟩ }

/-- Witness for C8: a three-line file keeps its two surviving rows in
input order, and the links lines are the in-order filterMap of the
tuples. -/
theorem output_order_preserved_witness :
    parse_blast_report [row50, row49, row60] = Except.ok [hitOf r50, hitOf r60] ∧
    (generate_links [hitOf r50, hitOf r60] qgC2 sgC2 "plastome" "mito").lines =
      [hitOf r50, hitOf r60].filterMap (resolveLine qgC2 sgC2 "plastome" "mito") :=
  ⟨(output_order_preserved.1 [row50, row49, row60] [r50, r49, r60] (by decide)).trans
    (by decide),
   output_order_preserved.2 [hitOf r50, hitOf r60] qgC2 sgC2 "plastome" "mito"⟩

/-- Two features identical except possibly in their strand annotation. -/
def featAgree (f f' : Feature) : Prop :=
  f.ftype = f'.ftype ∧ f.gene = f'.gene ∧ f.locus_tag = f'.locus_tag ∧
    f.start = f'.start ∧ f.end_ = f'.end_

/-- Two records identical except possibly in feature strands. -/
def recAgree (r r' : GBRecord) : Prop :=
  r.seq_len = r'.seq_len ∧ List.Forall₂ featAgree r.features r'.features

/-- Two dict entries identical except possibly in the stored strand. -/
def entryAgree (p q : String × GeneInfo) : Prop :=
  p.1 = q.1 ∧ p.2.start = q.2.start ∧ p.2.end_ = q.2.end_

theorem gene_name_of_agree {f f' : Feature} (h : featAgree f f') :
    gene_name_of f = gene_name_of f' := by
  obtain ⟨_, hg, hl, _, _⟩ := h
  simp [gene_name_of, hg, hl]

theorem keys_agree : ∀ {d d' : GeneDict}, List.Forall₂ entryAgree d d' → keys d = keys d' := by
  intro d d' h
  induction h with
  | nil => rfl
  | cons hpq _ ih => simp [keys] at ih ⊢; exact ⟨hpq.1, ih⟩

theorem dictGet_agree : ∀ {d d' : GeneDict}, List.Forall₂ entryAgree d d' → ∀ k : String,
    (dictGet d k = none ∧ dictGet d' k = none) ∨
    ∃ v v', dictGet d k = some v ∧ dictGet d' k = some v' ∧
      v.start = v'.start ∧ v.end_ = v'.end_ := by
  intro d d' h
  induction h with
  | nil => intro k; exact Or.inl ⟨rfl, rfl⟩
  | cons hpq htail ih =>
    intro k
    rename_i p q l l'
    by_cases hk : p.1 = k
    · exact Or.inr ⟨p.2, q.2, by simp [dictGet, hk], by simp [dictGet, hpq.1 ▸ hk],
        hpq.2.1, hpq.2.2⟩
    · have hk' : ¬(q.1 = k) := fun h' => hk (hpq.1 ▸ h')
      rcases ih k with ⟨h1, h2⟩ | ⟨v, v', h1, h2, h3, h4⟩
      · exact Or.inl ⟨by simp [dictGet, hk, h1], by simp [dictGet, hk', h2]⟩
      · exact Or.inr ⟨v, v', by simp [dictGet, hk, h1], by simp [dictGet, hk', h2], h3, h4⟩

theorem forall₂_concat {R : (String × GeneInfo) → (String × GeneInfo) → Prop} :
    ∀ {l l' : GeneDict}, List.Forall₂ R l l' → ∀ {a b}, R a b →
      List.Forall₂ R (l ++ [a]) (l' ++ [b]) := by
  intro l l' h
  induction h with
  | nil => intro a b hab; exact List.Forall₂.cons hab List.Forall₂.nil
  | cons hpq _ ih => intro a b hab; exact List.Forall₂.cons hpq (ih hab)

theorem dictInsert_agree {d d' : GeneDict} (h : List.Forall₂ entryAgree d d')
    (k : String) {v v' : GeneInfo} (hs : v.start = v'.start) (he : v.end_ = v'.end_) :
    List.Forall₂ entryAgree (dictInsert d k v) (dictInsert d' k v') := by
  have hkeys : keys d = keys d' := keys_agree h
  have hany : (d.any fun p => p.1 = k) = (d'.any fun p => p.1 = k) := by
    rw [any_key_eq_isSome, any_key_eq_isSome]
    rcases dictGet_agree h k with ⟨h1, h2⟩ | ⟨w, w', h1, h2, _, _⟩ <;> rw [h1, h2] <;> rfl
  unfold dictInsert
  rw [← hany]
  by_cases hb : (d.any fun p => p.1 = k) = true
  · simp only [hb, if_true]
    clear hany hkeys hb
    induction h with
    | nil => exact List.Forall₂.nil
    | cons hpq htail ih =>
      rename_i p q l l'
      refine List.Forall₂.cons ?_ ih
      by_cases hk : p.1 = k
      · simp [hk, hpq.1 ▸ hk, entryAgree, hs, he]
      · have hk' : ¬(q.1 = k) := fun h' => hk (hpq.1 ▸ h')
        simp [hk, hk']
        exact hpq
  · have hb' : (d.any fun p => p.1 = k) = false := by
      cases hx : (d.any fun p => p.1 = k) with
      | false => rfl
      | true => exact absurd hx hb
    simp only [hb', Bool.false_eq_true, if_false]
    exact forall₂_concat h ⟨rfl, hs, he⟩

theorem process_features_agree :
    ∀ {fs fs' : List Feature}, List.Forall₂ featAgree fs fs' →
      ∀ {d d' : GeneDict}, List.Forall₂ entryAgree d d' →
        List.Forall₂ entryAgree (process_features d fs) (process_features d' fs') := by
  intro fs fs' h
  induction h with
  | nil => intro d d' hd; exact hd
  | cons hff htail ih =>
    intro d d' hd
    rename_i f f' l l'
    simp only [process_features]
    by_cases hf : f.ftype = "CDS"
    · have hf' : f'.ftype = "CDS" := hff.1 ▸ hf
      rw [if_pos hf, if_pos hf', gene_name_of_agree hff]
      exact ih (dictInsert_agree hd _ hff.2.2.2.1 hff.2.2.2.2)
    · have hf' : ¬(f'.ftype = "CDS") := fun h' => hf (hff.1 ▸ h')
      rw [if_neg hf, if_neg hf']
      exact ih hd

theorem parse_genbank_agree :
    ∀ {rs rs' : List GBRecord}, List.Forall₂ recAgree rs rs' →
      List.Forall₂ entryAgree (parse_genbank rs).1 (parse_genbank rs').1 ∧
      (parse_genbank rs).2 = (parse_genbank rs').2 := by
  suffices haux : ∀ {rs rs' : List GBRecord}, List.Forall₂ recAgree rs rs' →
      ∀ (d d' : GeneDict) (n : Nat), List.Forall₂ entryAgree d d' →
        List.Forall₂ entryAgree
          (rs.foldl (fun acc r => (process_features acc.1 r.features, r.seq_len)) (d, n)).1
          (rs'.foldl (fun acc r => (process_features acc.1 r.features, r.seq_len)) (d', n)).1 ∧
        (rs.foldl (fun acc r => (process_features acc.1 r.features, r.seq_len)) (d, n)).2 =
          (rs'.foldl (fun acc r => (process_features acc.1 r.features, r.seq_len)) (d', n)).2 by
    intro rs rs' h
    exact haux h [] [] 0 List.Forall₂.nil
  intro rs rs' h
  induction h with
  | nil => intro d d' n hd; exact ⟨hd, rfl⟩
  | cons hrr htail ih =>
    intro d d' n hd
    rename_i r r' l l'
    simp only [List.foldl_cons]
    rw [hrr.1]
    exact ih _ _ _ (process_features_agree hrr.2 hd)

theorem generate_labels_agree {qg qg' sg sg' : GeneDict}
    (hq : List.Forall₂ entryAgree qg qg') (hs : List.Forall₂ entryAgree sg sg')
    (qn sn : String) :
    generate_labels qg sg qn sn = generate_labels qg' sg' qn sn := by
  have hmap : ∀ (n : String) {g g' : GeneDict}, List.Forall₂ entryAgree g g' →
      g.map (labelLine n) = g'.map (labelLine n) := by
    intro n g g' h
    induction h with
    | nil => rfl
    | cons hpq _ ih =>
      simp only [List.map_cons, ih, List.cons.injEq, and_true]
      simp [labelLine, hpq.1, hpq.2.1, hpq.2.2]
  simp only [generate_labels, hmap qn hq, hmap sn hs]

theorem generate_links_agree {qg qg' sg sg' : GeneDict}
    (hq : List.Forall₂ entryAgree qg qg') (hs : List.Forall₂ entryAgree sg sg')
    (qn sn : String) :
    ∀ bd : List BlastHit,
      generate_links bd qg sg qn sn = generate_links bd qg' sg' qn sn := by
  intro bd
  induction bd with
  | nil => rfl
  | cons h rest ih =>
    simp only [generate_links, ih]
    rcases dictGet_agree hq h.query_id with ⟨h1, h2⟩ | ⟨v, v', h1, h2, h3, h4⟩
    · rw [h1, h2]
    · rw [h1, h2]
      rcases dictGet_agree hs h.subject_id with ⟨h5, h6⟩ | ⟨w, w', h5, h6, h7, h8⟩
      · rw [h5, h6]
      · rw [h5, h6]
        simp [linkLine, h3, h7]

/-- Claim C10: the recorded strand never influences any output: for two
runs whose annotation inputs agree on everything except feature strands
and whose alignment input is identical, the karyotype, labels and links
outputs (lines, diagnostics and reported link count) are identical. -/
theorem strand_noninterference (qrs qrs' srs srs' : List GBRecord)
    (bd : List BlastHit) (qn sn : String)
    (hq : List.Forall₂ recAgree qrs qrs') (hs : List.Forall₂ recAgree srs srs') :
    generate_karyotype (parse_genbank qrs).2 (parse_genbank srs).2 qn sn =
      generate_karyotype (parse_genbank qrs').2 (parse_genbank srs').2 qn sn ∧
    generate_labels (parse_genbank qrs).1 (parse_genbank srs).1 qn sn =
      generate_labels (parse_genbank qrs').1 (parse_genbank srs').1 qn sn ∧
    generate_links bd (parse_genbank qrs).1 (parse_genbank srs).1 qn sn =
      generate_links bd (parse_genbank qrs').1 (parse_genbank srs').1 qn sn := by
  obtain ⟨hqd, hql⟩ := parse_genbank_agree hq
  obtain ⟨hsd, hsl⟩ := parse_genbank_agree hs
  refine ⟨?_, ?_, ?_⟩
  · rw [hql, hsl]
  · exact generate_labels_agree hqd hsd qn sn
  · exact generate_links_agree hqd hsd qn sn bd

/-- Fixture: a one-record genome whose single CDS is on the plus strand. -/
def strandRecsPlus : List GBRecord :=
  [{ seq_len := 5000,
     features := [{ ftype := "CDS", gene := some "g1", locus_tag := none,
                    start := 100, end_ := 400, strand := some 1 }] }]

/-- Fixture: the same genome with the CDS on the minus strand. -/
def strandRecsMinus : List GBRecord :=
  [{ seq_len := 5000,
     features := [{ ftype := "CDS", gene := some "g1", locus_tag := none,
                    start := 100, end_ := 400, strand := some (-1) }] }]

/-- Witness for C10: flipping the only feature's strand between two runs
leaves all three outputs unchanged. -/
theorem strand_noninterference_witness :
    generate_karyotype (parse_genbank strandRecsPlus).2 (parse_genbank strandRecsPlus).2
        "Q" "S" =
      generate_karyotype (parse_genbank strandRecsMinus).2 (parse_genbank strandRecsMinus).2
        "Q" "S" ∧
    generate_labels (parse_genbank strandRecsPlus).1 (parse_genbank strandRecsPlus).1
        "Q" "S" =
      generate_labels (parse_genbank strandRecsMinus).1 (parse_genbank strandRecsMinus).1
        "Q" "S" ∧
    generate_links [BlastHit.mk "g1" "g1" 1 50 1 40]
        (parse_genbank strandRecsPlus).1 (parse_genbank strandRecsPlus).1 "Q" "S" =
      generate_links [BlastHit.mk "g1" "g1" 1 50 1 40]
        (parse_genbank strandRecsMinus).1 (parse_genbank strandRecsMinus).1 "Q" "S" :=
  strand_noninterference strandRecsPlus strandRecsMinus strandRecsPlus strandRecsMinus
    [BlastHit.mk "g1" "g1" 1 50 1 40] "Q" "S"
    (List.Forall₂.cons ⟨rfl, List.Forall₂.cons ⟨rfl, rfl, rfl, rfl, rfl⟩ List.Forall₂.nil⟩
      List.Forall₂.nil)
    (List.Forall₂.cons ⟨rfl, List.Forall₂.cons ⟨rfl, rfl, rfl, rfl, rfl⟩ List.Forall₂.nil⟩
      List.Forall₂.nil)
